import Mathlib

/-!
Verification of the batch checklist-item creation path of the trello-mcp
repository, shallowly embedded in Lean 4.

Sources embedded:
- `src/utils/checklist-validation.ts` (class `ChecklistValidation`)
- `src/tools/checklists/add-checklist-item.ts` (`batchAddChecklistItemsTool.handler`)
- `src/services/trello-api.ts` (`TrelloApiService.initialize` / `validateCredentials`),
  modelled as an abstract initialization status, since its effect on the handler is
  only: a possible credential-validation HTTP request and a possible thrown error.

Modelling conventions:
- JavaScript strings are Lean `String`s.  `String.prototype.trim` and
  `String.prototype.toLowerCase` are modelled by `jsTrim` / `jsToLower`
  (list-of-characters recursion, so that concrete instances evaluate in the kernel).
- JavaScript numbers are modelled as rationals (`ℚ`).  Every numeric comparison the
  embedded code performs (`>= 0`) is exact on the literals appearing here, so no
  floating-point behaviour is involved.
- `undefined`-able values are `Option`s; a missing object field is `none`.
- The remote API is an oracle `remote : ℕ → RequestBody → RemoteResult` giving, for
  the i-th create call of the batch, either the created item or the thrown error.
- `new Date(s)` validity (`!isNaN(new Date(due).getTime())`) is an environment
  oracle `dparse : String → Bool`; the surrounding regular-expression check is
  embedded concretely as `iso8601Shape`.
- The observable I/O of one handler invocation is a list of `Event`s: remote HTTP
  requests (credential check, per-item create call) and `setTimeout` pacing delays.
-/

/-- JS `String.prototype.trim` helper: drop leading whitespace characters. -/
def dropWs : List Char → List Char
  | [] => []
  | c :: cs => if c.isWhitespace then dropWs cs else c :: cs

/-- Model of JS `String.prototype.trim`: drop leading and trailing whitespace. -/
def jsTrim (s : String) : String := ⟨(dropWs ((dropWs s.data).reverse)).reverse⟩

/-- Model of JS `String.prototype.toLowerCase` (ASCII case mapping suffices for
the error messages classified here). -/
def jsToLower (s : String) : String := ⟨s.data.map Char.toLower⟩

/-- Prefix test over characters, for the substring check. -/
def charsPrefix : List Char → List Char → Bool
  | [], _ => true
  | _ :: _, [] => false
  | a :: as, b :: bs => a == b && charsPrefix as bs

/-- Test whether `pat` occurs as a contiguous run inside `l`. -/
def hasSub : List Char → List Char → Bool
  | [], pat => pat.isEmpty
  | c :: cs, pat => charsPrefix pat (c :: cs) || hasSub cs pat

/-- Model of JS `String.prototype.includes` as used by the error classifier. -/
def strContains (s sub : String) : Bool := hasSub s.data sub.data

/-- A `pos` value, which per the zod schema of the tool is a string or a number. -/
inductive PosVal where
  | str (s : String)
  | num (q : ℚ)
deriving DecidableEq

/-- The fields of one batch item object (zod `checklistItemSchema`); a field that
is absent on the JS object is `none`. -/
structure ItemFields where
  name : Option String := none
  pos : Option PosVal := none
  checked : Option Bool := none
  due : Option String := none
  dueReminder : Option ℚ := none
  idMember : Option String := none
deriving DecidableEq

/-- One entry of the `items` argument: validation distinguishes non-object entries
(`!item || typeof item !== "object"`) from object entries. -/
inductive ItemVal where
  | notObject
  | obj (fields : ItemFields)
deriving DecidableEq

/-- The `items` argument as the validator sees it: missing, not an array, or an
array of entries. -/
inductive ItemsArg where
  | undef
  | notArray
  | arr (items : List ItemVal)
deriving DecidableEq

/-- Embeds `ChecklistValidationError` from checklist-validation.ts. -/
structure VError where
  errorField : String
  message : String
  expectedFormat : Option String
deriving DecidableEq

/-- Embeds `ChecklistValidation.isValidChecklistId`: 24-character hexadecimal string
(regex `^[0-9a-fA-F]{24}$`). -/
def isHexChar (c : Char) : Bool :=
  c.isDigit || ('a' ≤ c && c ≤ 'f') || ('A' ≤ c && c ≤ 'F')

def isValidChecklistId (s : String) : Bool :=
  s.length == 24 && s.data.all isHexChar

/-- Embeds `ChecklistValidation.isValidMemberId` (same 24-hex regex). -/
def isValidMemberId (s : String) : Bool :=
  s.length == 24 && s.data.all isHexChar

/-- Embeds `ChecklistValidation.isValidItemName`:
`name.trim().length > 0 && name.length <= 16384` (the `typeof` guard holds by type). -/
def isValidItemName (name : String) : Bool :=
  decide (0 < (jsTrim name).length) && decide (name.length ≤ 16384)

/-- Embeds `ChecklistValidation.isValidPosition`: the strings "top"/"bottom", or a number
`>= 0`. -/
def isValidPosition : PosVal → Bool
  | .str s => s == "top" || s == "bottom"
  | .num q => decide (0 ≤ q)

/-- The regex `^\d{4}-\d{2}-\d{2}T\d{2}:\d{2}:\d{2}(\.\d{3})?Z?$` from
`ChecklistValidation.isValidDueDate`. -/
def iso8601Shape (s : String) : Bool :=
  match s.data with
  | y1 :: y2 :: y3 :: y4 :: '-' :: m1 :: m2 :: '-' :: d1 :: d2 :: 'T' ::
    h1 :: h2 :: ':' :: mi1 :: mi2 :: ':' :: s1 :: s2 :: rest =>
      [y1, y2, y3, y4, m1, m2, d1, d2, h1, h2, mi1, mi2, s1, s2].all Char.isDigit &&
      (match rest with
       | [] => true
       | ['Z'] => true
       | '.' :: f1 :: f2 :: f3 :: rest2 =>
           [f1, f2, f3].all Char.isDigit && (rest2 == [] || rest2 == ['Z'])
       | _ => false)
  | _ => false

/-- Embeds `ChecklistValidation.isValidDueDate`: regex match plus
`!isNaN(new Date(due).getTime())`, the latter an environment oracle `dparse`. -/
def isValidDueDate (dparse : String → Bool) (due : String) : Bool :=
  iso8601Shape due && dparse due

/-- Embeds `ChecklistValidation.isValidDueReminder`: a number `>= 0` (the `typeof` guard
holds by type). -/
def isValidDueReminder (r : ℚ) : Bool := decide (0 ≤ r)

/-- Embeds `ChecklistValidation.isValidBatchSize`: an array with between 1 and 50 entries
(the `Array.isArray` conjunct holds on the `arr` branch where this is called). -/
def isValidBatchSize (items : List ItemVal) : Bool :=
  decide (0 < items.length) && decide (items.length ≤ 50)

def cidRequiredErr : VError :=
  ⟨"checklistId", "Checklist ID is required", some "24-character hexadecimal string"⟩

def cidInvalidErr : VError :=
  ⟨"checklistId", "Invalid checklist ID format", some "24-character hexadecimal string"⟩

def nameRequiredErr : VError :=
  ⟨"name", "Item name is required", some "Non-empty string up to 16384 characters"⟩

def nameInvalidErr : VError :=
  ⟨"name", "Invalid item name format", some "Non-empty string up to 16384 characters"⟩

def posInvalidErr : VError :=
  ⟨"pos", "Invalid position format", some "\"top\", \"bottom\", or positive number"⟩

def dueInvalidErr : VError :=
  ⟨"due", "Invalid due date format",
   some "ISO 8601 date string (e.g., \x272023-12-31T23:59:59.000Z\x27)"⟩

def remInvalidErr : VError :=
  ⟨"dueReminder", "Invalid due reminder format", some "Positive number representing minutes"⟩

def memberInvalidErr : VError :=
  ⟨"idMember", "Invalid member ID format", some "24-character hexadecimal string"⟩

def itemsRequiredErr : VError :=
  ⟨"items", "Items array is required", some "Array of checklist item objects (1-50 items)"⟩

def itemsNotArrayErr : VError :=
  ⟨"items", "Items must be an array", some "Array of checklist item objects (1-50 items)"⟩

def batchSizeErr : VError :=
  ⟨"items", "Invalid batch size", some "Array with 1-50 checklist item objects"⟩

def itemFormatErr (i : ℕ) : VError :=
  ⟨"items[" ++ toString i ++ "]", "Invalid item format",
   some "Object with at least \x27name\x27 property"⟩

/-- The `checklistId` portion of `validateChecklistItemParameters` /
`validateBatchChecklistItemParameters` (`!params.checklistId` is JS-falsy, i.e. the
empty string for a string-typed value). -/
def checklistIdFieldErrors (checklistId : String) : List VError :=
  if checklistId == "" then [cidRequiredErr]
  else if !isValidChecklistId checklistId then [cidInvalidErr]
  else []

/-- The `name` paragraph of `validateChecklistItemParameters`: `!params.name`
(JS-falsy: missing or empty) gives the required-error, otherwise an invalid name
gives the format error. -/
def nameFieldErrors (name : Option String) : List VError :=
  match name with
  | none => [nameRequiredErr]
  | some n =>
    if n == "" then [nameRequiredErr]
    else if !isValidItemName n then [nameInvalidErr]
    else []

/-- The `pos` paragraph: checked only when present. -/
def posFieldErrors (pos : Option PosVal) : List VError :=
  match pos with
  | some p => if !isValidPosition p then [posInvalidErr] else []
  | none => []

/-- The `due` paragraph: checked only when present. -/
def dueFieldErrors (dparse : String → Bool) (due : Option String) : List VError :=
  match due with
  | some d => if !isValidDueDate dparse d then [dueInvalidErr] else []
  | none => []

/-- The `dueReminder` paragraph: checked only when present. -/
def reminderFieldErrors (rem : Option ℚ) : List VError :=
  match rem with
  | some r => if !isValidDueReminder r then [remInvalidErr] else []
  | none => []

/-- The `idMember` paragraph: checked only when present. -/
def memberFieldErrors (idMember : Option String) : List VError :=
  match idMember with
  | some m => if !isValidMemberId m then [memberInvalidErr] else []
  | none => []

/-- Embeds `ChecklistValidation.validateChecklistItemParameters`, field by field in source
order: checklistId, name, pos, checked, due, dueReminder, idMember.  The `checked`
check (`typeof params.checked !== "boolean"`) can never fail for an
`Option Bool`-typed field, hence contributes no error and no paragraph here. -/
def validateChecklistItemParameters (dparse : String → Bool) (checklistId : String)
    (f : ItemFields) : List VError :=
  checklistIdFieldErrors checklistId
  ++ nameFieldErrors f.name
  ++ posFieldErrors f.pos
  ++ dueFieldErrors dparse f.due
  ++ reminderFieldErrors f.dueReminder
  ++ memberFieldErrors f.idMember

/-- The per-item step of `validateBatchChecklistItemParameters`: non-object items
get an `items[i]` format error; object items are validated with the parent
checklistId, the checklistId errors filtered out, and `items[i].` prepended to each
field name. -/
def prefixItemErr (i : ℕ) (e : VError) : VError :=
  { e with errorField := "items[" ++ toString i ++ "]." ++ e.errorField }

def batchItemErrors (dparse : String → Bool) (checklistId : String) (i : ℕ)
    (item : ItemVal) : List VError :=
  match item with
  | .notObject => [itemFormatErr i]
  | .obj f =>
    ((validateChecklistItemParameters dparse checklistId f).filter
      (fun e => !(e.errorField == "checklistId"))).map (prefixItemErr i)

/-- The `params.items.forEach((item, index) => ...)` accumulation loop. -/
def batchItemsLoop (dparse : String → Bool) (checklistId : String) :
    ℕ → List ItemVal → List VError
  | _, [] => []
  | i, item :: rest =>
    batchItemErrors dparse checklistId i item ++ batchItemsLoop dparse checklistId (i + 1) rest

/-- Embeds `ChecklistValidation.validateBatchChecklistItemParameters`. -/
def validateBatchChecklistItemParameters (dparse : String → Bool) (checklistId : String)
    (items : ItemsArg) : List VError :=
  checklistIdFieldErrors checklistId
  ++ (match items with
      | .undef => [itemsRequiredErr]
      | .notArray => [itemsNotArrayErr]
      | .arr l =>
        if !isValidBatchSize l then [batchSizeErr]
        else batchItemsLoop dparse checklistId 0 l)

/-- Modelled from the spec (section 4.1 wording, for comparison with the source
validator): for item `i`, the failing fields listed in the fixed field order
name, pos, due, dueReminder, idMember, each error tagged `items[i].`. -/
def specItemFieldErrors (dparse : String → Bool) (i : ℕ) (item : ItemVal) : List VError :=
  match item with
  | .notObject => [itemFormatErr i]
  | .obj f =>
    (nameFieldErrors f.name
     ++ posFieldErrors f.pos
     ++ dueFieldErrors dparse f.due
     ++ reminderFieldErrors f.dueReminder
     ++ memberFieldErrors f.idMember).map (prefixItemErr i)

/-- The request body built per item by the batch handler (lines 538-558): `name`
always present and trimmed, each optional field copied only when present on the
item (`if (item.X !== undefined) requestBody.X = item.X`). -/
structure RequestBody where
  name : String
  pos : Option PosVal
  checked : Option Bool
  due : Option String
  dueReminder : Option ℚ
  idMember : Option String
deriving DecidableEq

/-- Embeds the `requestBody` construction, mirroring the sequence of conditional assignments.
`item.name.trim()` presupposes `name` present (guaranteed by the zod schema and by
validation); a missing name is totalized to the empty string. -/
def buildRequestBody (f : ItemFields) : RequestBody :=
  let rb : RequestBody :=
    { name := jsTrim (f.name.getD ""), pos := none, checked := none, due := none,
      dueReminder := none, idMember := none }
  let rb := match f.pos with | some p => { rb with pos := some p } | none => rb
  let rb := match f.checked with | some c => { rb with checked := some c } | none => rb
  let rb := match f.due with | some d => { rb with due := some d } | none => rb
  let rb := match f.dueReminder with | some r => { rb with dueReminder := some r } | none => rb
  let rb := match f.idMember with | some m => { rb with idMember := some m } | none => rb
  rb

/-- The fields of the remote API response that the handler projects into the
per-item `result` record (lines 571-579). -/
structure CreatedItem where
  id : String
  name : String
  state : Option String
  pos : Option PosVal
  due : Option String
  dueReminder : Option ℚ
  idMember : Option String
deriving DecidableEq

/-- A thrown JS value: an `Error` with a message, or any non-`Error` value. -/
inductive ErrorVal where
  | jsError (message : String)
  | nonError
deriving DecidableEq

/-- Outcome of one remote create call. -/
inductive RemoteResult where
  | ok (created : CreatedItem)
  | err (e : ErrorVal)
deriving DecidableEq

def notFoundMsg : String :=
  "Checklist not found. Please verify the checklist ID exists and you have access to it."

def unauthorizedMsg : String :=
  "Unauthorized access. Please check your Trello API credentials and board permissions."

def forbiddenMsg : String :=
  "Access forbidden. You don\x27t have permission to modify this checklist."

def rateLimitMsg : String :=
  "Rate limit exceeded. Please wait before making more requests."

def unknownErrMsg : String := "Unknown error occurred"

/-- The per-item catch block (lines 584-602): classify the thrown value by
substring tests on the lowercased message. -/
def classifyRemoteError (e : ErrorVal) : String :=
  match e with
  | .nonError => unknownErrMsg
  | .jsError message =>
    let m := jsToLower message
    if strContains m "not found" || strContains m "404" then notFoundMsg
    else if strContains m "unauthorized" || strContains m "401" then unauthorizedMsg
    else if strContains m "forbidden" || strContains m "403" then forbiddenMsg
    else if strContains m "rate limit" || strContains m "429" then rateLimitMsg
    else message

/-- One entry of the `results` array pushed by the loop: `result` is present
exactly on success, `error` exactly on failure. -/
structure ItemResult where
  index : ℕ
  success : Bool
  item : ItemVal
  result : Option CreatedItem
  error : Option String
deriving DecidableEq

/-- Observable effects of one handler invocation: the credential-validation
request of `TrelloApiService.initialize`, one POST per item, and the `setTimeout`
pacing delays (milliseconds). -/
inductive Event where
  | credentialCheck
  | apiCall (index : ℕ) (body : RequestBody)
  | delayMs (ms : ℕ)
deriving DecidableEq

/-- For the loop body: the item fields (loop items are objects once validation
passed; a non-object is totalized to the empty field set). -/
def getFields : ItemVal → ItemFields
  | .obj f => f
  | .notObject => {}

/-- The try/catch body for item `i`: call the remote API with the built request
body; on success record index/success/item/projected result, on failure record
index/failure/item/classified error message. -/
def itemOutcome (remote : ℕ → RequestBody → RemoteResult) (i : ℕ) (item : ItemVal) :
    ItemResult :=
  match remote i (buildRequestBody (getFields item)) with
  | .ok created =>
    { index := i, success := true, item := item, result := some created, error := none }
  | .err e =>
    { index := i, success := false, item := item, result := none,
      error := some (classifyRemoteError e) }

/-- Aggregate state of the sequential loop (lines 534-619): results in push order,
the two counters, and the emitted events. -/
structure RunOutput where
  results : List ItemResult
  successfulCount : ℕ
  failedCount : ℕ
  events : List Event
deriving DecidableEq

/-- The `for (let i = 0; i < items.length; i++)` loop: process the item, bump the
matching counter, and, when `i < items.length - 1`, await a 100 ms delay before
the next iteration.  `n` is `items.length`; `i` is the current index. -/
def runItems (remote : ℕ → RequestBody → RemoteResult) (n : ℕ) :
    ℕ → List ItemVal → RunOutput
  | _, [] => ⟨[], 0, 0, []⟩
  | i, item :: rest =>
    let res := itemOutcome remote i item
    let tail := runItems remote n (i + 1) rest
    { results := res :: tail.results
      successfulCount := (if res.success then 1 else 0) + tail.successfulCount
      failedCount := (if res.success then 0 else 1) + tail.failedCount
      events := Event.apiCall i (buildRequestBody (getFields item)) ::
        ((if i < n - 1 then [Event.delayMs 100] else []) ++ tail.events) }

/-- Embeds `batchSummary` (lines 622-627). -/
structure BatchSummary where
  total : ℕ
  successful : ℕ
  failed : ℕ
  checklistId : String
deriving DecidableEq

/-- A JSON-like value, used to state what the structured `_meta` part of the
response serializes to (JS object fields with `undefined` values are dropped). -/
inductive JVal where
  | jstr (s : String)
  | jnum (q : ℚ)
  | jbool (b : Bool)
  | jnull
  | jarr (xs : List JVal)
  | jobj (fields : List (String × JVal))

/-- Field lookup on a JSON object. -/
def jlookup (j : JVal) (key : String) : Option JVal :=
  match j with
  | .jobj fields => fields.lookup key
  | _ => none

/-- Top-level key list of a JSON object. -/
def jkeys (j : JVal) : List String :=
  match j with
  | .jobj fields => fields.map (fun p => p.1)
  | _ => []

def optField (key : String) (v : Option JVal) : List (String × JVal) :=
  match v with
  | some j => [(key, j)]
  | none => []

def posJson : PosVal → JVal
  | .str s => .jstr s
  | .num q => .jnum q

/-- Serialization of a raw input item as it is echoed in each result entry. -/
def itemJson : ItemVal → JVal
  | .notObject => .jnull
  | .obj f =>
    .jobj (optField "name" (f.name.map .jstr)
      ++ optField "pos" (f.pos.map posJson)
      ++ optField "checked" (f.checked.map .jbool)
      ++ optField "due" (f.due.map .jstr)
      ++ optField "dueReminder" (f.dueReminder.map .jnum)
      ++ optField "idMember" (f.idMember.map .jstr))

/-- Serialization of the projected API response recorded on success. -/
def createdJson (c : CreatedItem) : JVal :=
  .jobj ([("id", .jstr c.id), ("name", .jstr c.name)]
    ++ optField "state" (c.state.map .jstr)
    ++ optField "pos" (c.pos.map posJson)
    ++ optField "due" (c.due.map .jstr)
    ++ optField "dueReminder" (c.dueReminder.map .jnum)
    ++ optField "idMember" (c.idMember.map .jstr))

/-- Serialization of one `results` entry. -/
def resultJson (r : ItemResult) : JVal :=
  .jobj ([("index", .jnum (r.index : ℚ)), ("success", .jbool r.success),
    ("item", itemJson r.item)]
    ++ optField "result" (r.result.map createdJson)
    ++ optField "error" (r.error.map .jstr))

def summaryJson (s : BatchSummary) : JVal :=
  .jobj [("total", .jnum (s.total : ℚ)), ("successful", .jnum (s.successful : ℚ)),
    ("failed", .jnum (s.failed : ℚ)), ("checklistId", .jstr s.checklistId)]

/-- Serialization of the `_meta` object of the batch response (lines 663-667). -/
def metaJson (summary : BatchSummary) (results : List ItemResult) : JVal :=
  .jobj [("batchOperation", .jbool true), ("summary", summaryJson summary),
    ("results", .jarr (results.map resultJson))]

/-- JS `Array.prototype.join(sep)`. -/
def joinSep (sep : String) : List String → String
  | [] => ""
  | [x] => x
  | x :: y :: rest => x ++ sep ++ joinSep sep (y :: rest)

/-- Fallback `CreatedItem` used only to totalize `r.result` on the success path
(the source accesses `r.result.name` only for entries with `success` true, where
`result` is always present). -/
def emptyCreated : CreatedItem :=
  { id := "", name := "", state := none, pos := none, due := none,
    dueReminder := none, idMember := none }

/-- The line rendered for a succeeded item (name and created id). -/
def okLine (c : CreatedItem) : String :=
  "- **" ++ c.name ++ "** (ID: `" ++ c.id ++ "`)"

/-- The line rendered for a failed item (input name and classified reason).  A JS
template literal prints `undefined` for a missing value. -/
def failLine (r : ItemResult) : String :=
  "- **" ++ ((getFields r.item).name.getD "undefined") ++ "**: " ++
    (r.error.getD "undefined")

/-- Header and summary paragraph of the rendered report (lines 637-642).  The
header glyph sequences are the literal byte sequences present in the source file. -/
def batchReportHeader (overallSuccess : Bool) (summary : BatchSummary) : String :=
  "# Batch Checklist Items " ++
    (if overallSuccess then "‚úÖ Completed Successfully" else "‚ö†Ô∏è Completed with Errors") ++
    "\n\n" ++
  "## Summary\n" ++
  "- **Total Items**: " ++ toString summary.total ++ "\n" ++
  "- **Successful**: " ++ toString summary.successful ++ "\n" ++
  "- **Failed**: " ++ toString summary.failed ++ "\n" ++
  "- **Checklist ID**: `" ++ summary.checklistId ++ "`\n\n"

/-- Succeeded-items section (lines 643-649), present when there is at least one
success. -/
def okSection (summary : BatchSummary) (results : List ItemResult) : String :=
  if 0 < summary.successful then
    "## ‚úÖ Successfully Added Items (" ++ toString summary.successful ++ ")\n" ++
    joinSep "\n" ((results.filter (fun r => r.success)).map
      (fun r => okLine (r.result.getD emptyCreated))) ++ "\n\n"
  else ""

/-- Failed-items section (lines 650-656), present when there is at least one
failure. -/
def failSection (summary : BatchSummary) (results : List ItemResult) : String :=
  if 0 < summary.failed then
    "## ‚ùå Failed Items (" ++ toString summary.failed ++ ")\n" ++
    joinSep "\n" ((results.filter (fun r => !r.success)).map failLine) ++ "\n\n"
  else ""

/-- Closing tips paragraph (lines 657-660). -/
def tipsText : String :=
  "## üí° Tips\n" ++
  "- Use the `get-cards-for-list` tool to find checklists on cards\n" ++
  "- If you encounter rate limiting, try reducing batch size or adding delays\n" ++
  "- Check that you have proper permissions for the board and checklist"

/-- The rendered text report (lines 636-660). -/
def renderBatchText (overallSuccess : Bool) (summary : BatchSummary)
    (results : List ItemResult) : String :=
  batchReportHeader overallSuccess summary ++ okSection summary results ++
    failSection summary results ++ tipsText

/-- State of the singleton `TrelloApiService` when the handler starts:
`ready` - already set up, nothing happens;
`firstUse` - not yet set up, configuration loads and the credential-validation
request succeeds;
`configFailure` - `ConfigManager.loadTrelloConfig` throws before any request;
`credentialFailure` - the credential-validation request is made and fails. -/
inductive InitStatus where
  | ready
  | firstUse
  | configFailure (msg : String)
  | credentialFailure
deriving DecidableEq

/-- Remote requests issued by the service set-up step. -/
def initEvents : InitStatus → List Event
  | .ready => []
  | .firstUse => [.credentialCheck]
  | .configFailure _ => []
  | .credentialFailure => [.credentialCheck]

/-- The error message thrown out of the set-up step, if any
(`Failed to initialize Trello API Service: ...`). -/
def initFailureMsg : InitStatus → Option String
  | .ready => none
  | .firstUse => none
  | .configFailure msg =>
    some ("Failed to initialize Trello API Service: " ++ msg)
  | .credentialFailure =>
    some ("Failed to initialize Trello API Service: " ++
      "Invalid Trello API credentials. Please check your TRELLO_API_KEY and TRELLO_TOKEN.")

/-- What the handler returns:
`validationError` - the "Invalid Parameters" response carrying the validation
errors (lines 491-519);
`batchResult` - the batch report: summary, results, the `overallSuccess` flag
(`failedCount === 0`), the rendered text, and the serialized `_meta`;
`toolError` - the outer catch (`generateToolErrorResponse`) with the thrown
message, reached when service set-up throws. -/
inductive HandlerResponse where
  | validationError (errors : List VError)
  | batchResult (summary : BatchSummary) (results : List ItemResult)
      (overallSuccess : Bool) (text : String) (meta : JVal)
  | toolError (message : String)

/-- Embeds `batchAddChecklistItemsTool.handler` (lines 473-683), returning the response
together with the list of emitted events. -/
def batchAddChecklistItemsHandler (init : InitStatus) (dparse : String → Bool)
    (remote : ℕ → RequestBody → RemoteResult) (checklistId : String)
    (items : ItemsArg) : HandlerResponse × List Event :=
  match initFailureMsg init with
  | some msg => (.toolError msg, initEvents init)
  | none =>
    let errors := validateBatchChecklistItemParameters dparse checklistId items
    if errors.isEmpty then
      match items with
      | .arr l =>
        let out := runItems remote l.length 0 l
        let summary : BatchSummary :=
          { total := l.length, successful := out.successfulCount,
            failed := out.failedCount, checklistId := checklistId }
        let overallSuccess := out.failedCount == 0
        (.batchResult summary out.results overallSuccess
          (renderBatchText overallSuccess summary out.results)
          (metaJson summary out.results),
         initEvents init ++ out.events)
      | _ =>
        -- dead branch: validation rejects a missing or non-array `items`
        (.toolError "unreachable: items validated as an array", initEvents init)
    else
      (.validationError errors, initEvents init)

/-! Helper lemmas. -/

theorem mem_checklistIdFieldErrors {e : VError} {cid : String}
    (h : e ∈ checklistIdFieldErrors cid) : e.errorField = "checklistId" := by
  unfold checklistIdFieldErrors at h
  split_ifs at h <;> simp at h <;> subst h <;> rfl

theorem mem_nameFieldErrors {e : VError} {o : Option String}
    (h : e ∈ nameFieldErrors o) : e.errorField = "name" := by
  cases o with
  | none => simp [nameFieldErrors] at h; subst h; rfl
  | some n =>
    simp only [nameFieldErrors] at h
    split_ifs at h <;> simp at h <;> subst h <;> rfl

theorem mem_posFieldErrors {e : VError} {o : Option PosVal}
    (h : e ∈ posFieldErrors o) : e.errorField = "pos" := by
  cases o with
  | none => simp [posFieldErrors] at h
  | some p =>
    simp only [posFieldErrors] at h
    split_ifs at h <;> simp at h
    subst h; rfl

theorem mem_dueFieldErrors {e : VError} {dparse : String → Bool} {o : Option String}
    (h : e ∈ dueFieldErrors dparse o) : e.errorField = "due" := by
  cases o with
  | none => simp [dueFieldErrors] at h
  | some d =>
    simp only [dueFieldErrors] at h
    split_ifs at h <;> simp at h
    subst h; rfl

theorem mem_reminderFieldErrors {e : VError} {o : Option ℚ}
    (h : e ∈ reminderFieldErrors o) : e.errorField = "dueReminder" := by
  cases o with
  | none => simp [reminderFieldErrors] at h
  | some r =>
    simp only [reminderFieldErrors] at h
    split_ifs at h <;> simp at h
    subst h; rfl

theorem mem_memberFieldErrors {e : VError} {o : Option String}
    (h : e ∈ memberFieldErrors o) : e.errorField = "idMember" := by
  cases o with
  | none => simp [memberFieldErrors] at h
  | some m =>
    simp only [memberFieldErrors] at h
    split_ifs at h <;> simp at h
    subst h; rfl

theorem filter_noncid_cid (cid : String) :
    (checklistIdFieldErrors cid).filter (fun e => !(e.errorField == "checklistId")) = [] := by
  rw [List.filter_eq_nil_iff]
  intro a ha
  simp [mem_checklistIdFieldErrors ha]

theorem filter_noncid_keep {l : List VError} (h : ∀ e ∈ l, e.errorField ≠ "checklistId") :
    l.filter (fun e => !(e.errorField == "checklistId")) = l := by
  rw [List.filter_eq_self]
  intro a ha
  simp [h a ha]

theorem batchItemErrors_eq_spec (dparse : String → Bool) (cid : String) (i : ℕ)
    (item : ItemVal) :
    batchItemErrors dparse cid i item = specItemFieldErrors dparse i item := by
  cases item with
  | notObject => rfl
  | obj f =>
    simp only [batchItemErrors, specItemFieldErrors, validateChecklistItemParameters]
    rw [List.filter_append, List.filter_append, List.filter_append, List.filter_append,
      List.filter_append, filter_noncid_cid,
      filter_noncid_keep (fun e he => by simp [mem_nameFieldErrors he]),
      filter_noncid_keep (fun e he => by simp [mem_posFieldErrors he]),
      filter_noncid_keep (fun e he => by simp [mem_dueFieldErrors he]),
      filter_noncid_keep (fun e he => by simp [mem_reminderFieldErrors he]),
      filter_noncid_keep (fun e he => by simp [mem_memberFieldErrors he])]
    simp

theorem batchItemsLoop_eq_flatMap (dparse : String → Bool) (cid : String)
    (l : List ItemVal) : ∀ i : ℕ,
    batchItemsLoop dparse cid i l =
      (List.enumFrom i l).flatMap (fun p => batchItemErrors dparse cid p.1 p.2) := by
  induction l with
  | nil => intro i; simp [batchItemsLoop]
  | cons item rest ih => intro i; simp [batchItemsLoop, ih]

theorem validate_arr_pass {dparse : String → Bool} {cid : String} {l : List ItemVal}
    (h : validateBatchChecklistItemParameters dparse cid (.arr l) = []) :
    checklistIdFieldErrors cid = [] ∧ isValidBatchSize l = true ∧
      batchItemsLoop dparse cid 0 l = [] := by
  simp only [validateBatchChecklistItemParameters] at h
  rw [List.append_eq_nil] at h
  obtain ⟨h1, h2⟩ := h
  split_ifs at h2 with hs
  exact ⟨h1, by simpa using hs, h2⟩

theorem runItems_results (remote : ℕ → RequestBody → RemoteResult) (n : ℕ)
    (l : List ItemVal) : ∀ i : ℕ,
    (runItems remote n i l).results =
      (List.enumFrom i l).map (fun p => itemOutcome remote p.1 p.2) := by
  induction l with
  | nil => intro i; simp [runItems]
  | cons item rest ih => intro i; simp [runItems, ih]

theorem runItems_events (remote : ℕ → RequestBody → RemoteResult) (n : ℕ)
    (l : List ItemVal) : ∀ i : ℕ,
    (runItems remote n i l).events =
      (List.enumFrom i l).flatMap (fun p =>
        Event.apiCall p.1 (buildRequestBody (getFields p.2)) ::
          (if p.1 < n - 1 then [Event.delayMs 100] else [])) := by
  induction l with
  | nil => intro i; simp [runItems]
  | cons item rest ih => intro i; simp [runItems, ih]

theorem runItems_success_count (remote : ℕ → RequestBody → RemoteResult) (n : ℕ)
    (l : List ItemVal) : ∀ i : ℕ,
    (runItems remote n i l).successfulCount =
      ((runItems remote n i l).results.filter (fun r => r.success)).length := by
  induction l with
  | nil => intro i; simp [runItems]
  | cons item rest ih =>
    intro i
    cases h : (itemOutcome remote i item).success <;>
      simp [runItems, ih, h, Nat.add_comm]

theorem runItems_failed_count (remote : ℕ → RequestBody → RemoteResult) (n : ℕ)
    (l : List ItemVal) : ∀ i : ℕ,
    (runItems remote n i l).failedCount =
      ((runItems remote n i l).results.filter (fun r => !r.success)).length := by
  induction l with
  | nil => intro i; simp [runItems]
  | cons item rest ih =>
    intro i
    cases h : (itemOutcome remote i item).success <;>
      simp [runItems, ih, h, Nat.add_comm]

theorem runItems_counts_sum (remote : ℕ → RequestBody → RemoteResult) (n : ℕ)
    (l : List ItemVal) : ∀ i : ℕ,
    (runItems remote n i l).successfulCount + (runItems remote n i l).failedCount =
      l.length := by
  induction l with
  | nil => intro i; simp [runItems]
  | cons item rest ih =>
    intro i
    cases h : (itemOutcome remote i item).success <;>
      simp [runItems, h, ← ih (i + 1)] <;> omega

/-- Unfolding of the handler once service set-up succeeds and validation passes. -/
theorem handler_arr_pass {init : InitStatus} {dparse : String → Bool}
    {remote : ℕ → RequestBody → RemoteResult} {cid : String} {l : List ItemVal}
    (hinit : initFailureMsg init = none)
    (hv : validateBatchChecklistItemParameters dparse cid (.arr l) = []) :
    batchAddChecklistItemsHandler init dparse remote cid (.arr l) =
      (HandlerResponse.batchResult
        ⟨l.length, (runItems remote l.length 0 l).successfulCount,
          (runItems remote l.length 0 l).failedCount, cid⟩
        (runItems remote l.length 0 l).results
        ((runItems remote l.length 0 l).failedCount == 0)
        (renderBatchText ((runItems remote l.length 0 l).failedCount == 0)
          ⟨l.length, (runItems remote l.length 0 l).successfulCount,
            (runItems remote l.length 0 l).failedCount, cid⟩
          (runItems remote l.length 0 l).results)
        (metaJson
          ⟨l.length, (runItems remote l.length 0 l).successfulCount,
            (runItems remote l.length 0 l).failedCount, cid⟩
          (runItems remote l.length 0 l).results),
       initEvents init ++ (runItems remote l.length 0 l).events) := by
  simp [batchAddChecklistItemsHandler, hinit, hv]

/-- Unfolding of the handler when service set-up succeeds but validation fails. -/
theorem handler_validation_fail {init : InitStatus} {dparse : String → Bool}
    {remote : ℕ → RequestBody → RemoteResult} {cid : String} {items : ItemsArg}
    (hinit : initFailureMsg init = none)
    (hv : validateBatchChecklistItemParameters dparse cid items ≠ []) :
    batchAddChecklistItemsHandler init dparse remote cid items =
      (.validationError (validateBatchChecklistItemParameters dparse cid items),
       initEvents init) := by
  simp [batchAddChecklistItemsHandler, hinit, hv]

/-- The classifier always lands in one of the five coarse buckets: the four fixed
messages, or the pass-through of the original message (for a non-`Error` throw,
the fixed unknown-error message). -/
theorem classifyRemoteError_cases (e : ErrorVal) :
    classifyRemoteError e = notFoundMsg ∨ classifyRemoteError e = unauthorizedMsg ∨
    classifyRemoteError e = forbiddenMsg ∨ classifyRemoteError e = rateLimitMsg ∨
    (∃ m, e = .jsError m ∧ classifyRemoteError e = m) ∨
    (e = .nonError ∧ classifyRemoteError e = unknownErrMsg) := by
  cases e with
  | nonError => exact Or.inr (Or.inr (Or.inr (Or.inr (Or.inr ⟨rfl, rfl⟩))))
  | jsError m =>
    simp only [classifyRemoteError]
    split_ifs <;>
      first
        | tauto
        | exact Or.inr (Or.inr (Or.inr (Or.inr (Or.inl ⟨m, rfl, rfl⟩))))

theorem sub_joinSep (sep : String) :
    ∀ (l : List String) (x : String), x ∈ l → x.data <:+: (joinSep sep l).data
  | [], x, h => absurd h (List.not_mem_nil x)
  | [a], x, h => by
    simp at h
    subst h
    simp [joinSep]
  | a :: b :: rest, x, h => by
    rcases List.mem_cons.mp h with h1 | h2
    · subst h1
      show x.data <:+: (x ++ sep ++ joinSep sep (b :: rest)).data
      simp only [String.data_append]
      exact ((List.prefix_append x.data sep.data).trans
        (List.prefix_append (x.data ++ sep.data) _)).isInfix
    · have ih := sub_joinSep sep (b :: rest) x h2
      show x.data <:+: (a ++ sep ++ joinSep sep (b :: rest)).data
      simp only [String.data_append]
      exact ih.trans (List.suffix_append _ _).isInfix

theorem itemOutcome_fixed (remote : ℕ → RequestBody → RemoteResult) (i : ℕ)
    (item : ItemVal) :
    (itemOutcome remote i item).index = i ∧ (itemOutcome remote i item).item = item := by
  cases hr : remote i (buildRequestBody (getFields item)) <;> simp [itemOutcome, hr]

theorem str_ne_empty_iff (s : String) : s ≠ "" ↔ 0 < s.length := by
  have h : (s = "") ↔ s.data = [] := by rw [String.ext_iff]
  have hlen : (0 < s.length) ↔ 0 < s.data.length := Iff.rfl
  rw [hlen, List.length_pos]
  exact not_congr h

theorem jsTrim_empty : jsTrim "" = "" := by decide

theorem posInvalid_mem_validate (dparse : String → Bool) (cid : String) (f : ItemFields) :
    posInvalidErr ∈ validateChecklistItemParameters dparse cid f ↔
      ∃ p, f.pos = some p ∧ isValidPosition p = false := by
  simp only [validateChecklistItemParameters, List.mem_append]
  constructor
  · rintro (((((h | h) | h) | h) | h) | h)
    · exact absurd (mem_checklistIdFieldErrors h) (by decide)
    · exact absurd (mem_nameFieldErrors h) (by decide)
    · cases hp : f.pos with
      | none => rw [hp] at h; simp [posFieldErrors] at h
      | some p =>
        rw [hp] at h
        simp only [posFieldErrors] at h
        split_ifs at h with hvp
        · exact ⟨p, rfl, by simpa using hvp⟩
        · simp at h
    · exact absurd (mem_dueFieldErrors h) (by decide)
    · exact absurd (mem_reminderFieldErrors h) (by decide)
    · exact absurd (mem_memberFieldErrors h) (by decide)
  · rintro ⟨p, hp, hvp⟩
    refine Or.inl (Or.inl (Or.inl (Or.inr ?_)))
    simp [posFieldErrors, hp, hvp]

theorem filter_name_validate (dparse : String → Bool) (cid : String) (f : ItemFields) :
    (validateChecklistItemParameters dparse cid f).filter
        (fun e => e.errorField == "name") = nameFieldErrors f.name := by
  simp only [validateChecklistItemParameters]
  rw [List.filter_append, List.filter_append, List.filter_append, List.filter_append,
    List.filter_append]
  rw [List.filter_eq_nil_iff.mpr
      (fun e he => by simp [mem_checklistIdFieldErrors he]),
    List.filter_eq_self.mpr (fun e he => by simp [mem_nameFieldErrors he]),
    List.filter_eq_nil_iff.mpr (fun e he => by simp [mem_posFieldErrors he]),
    List.filter_eq_nil_iff.mpr (fun e he => by simp [mem_dueFieldErrors he]),
    List.filter_eq_nil_iff.mpr (fun e he => by simp [mem_reminderFieldErrors he]),
    List.filter_eq_nil_iff.mpr (fun e he => by simp [mem_memberFieldErrors he])]
  simp

/-! Concrete inputs used by the witness theorems. -/

/-- Date-parsing oracle accepting everything (used only at inputs without `due`). -/
def dparse0 : String → Bool := fun _ => true

def cid0 : String := "6836b64d461ba344f5a564a2"

def created0 : CreatedItem :=
  { id := "60c5a04fb4d11a3c2e8b4567", name := "Review code changes",
    state := some "incomplete", pos := none, due := none, dueReminder := none,
    idMember := none }

def itemA : ItemVal := .obj { name := some "Review code changes" }

def itemB : ItemVal := .obj { name := some "Update documentation" }

def itemC : ItemVal := .obj { name := some "Run tests" }

/-- Remote oracle on which every create call succeeds. -/
def remoteOk : ℕ → RequestBody → RemoteResult := fun _ _ => .ok created0

/-- Remote oracle on which exactly the second call (index 1) fails with a
404-style error. -/
def remoteFail1 : ℕ → RequestBody → RemoteResult := fun i _ =>
  if i == 1 then .err (.jsError "HTTP 404: Not Found - the requested resource was not found")
  else .ok created0

/-- The rational one-half, written as an explicit numerator/denominator pair so
that concrete comparisons on it evaluate in the kernel. -/
def halfQ : ℚ := ⟨1, 2, by norm_num, by norm_num⟩

theorem strSub_appl {a b : String} (h : a.data <:+: b.data) (pre : String) :
    a.data <:+: (pre ++ b).data := by
  rw [String.data_append]
  exact h.trans (List.suffix_append _ _).isInfix

theorem strSub_appr {a b : String} (h : a.data <:+: b.data) (post : String) :
    a.data <:+: (b ++ post).data := by
  rw [String.data_append]
  exact h.trans (List.prefix_append _ _).isInfix

theorem okLine_sub_render {flag : Bool} {summary : BatchSummary}
    {results : List ItemResult}
    (hcount : summary.successful = (results.filter (fun r => r.success)).length)
    {r : ItemResult} (hr : r ∈ results) (hs : r.success = true) {c : CreatedItem}
    (hc : r.result = some c) :
    (okLine c).data <:+: (renderBatchText flag summary results).data := by
  have hmem : okLine c ∈ (results.filter (fun r => r.success)).map
      (fun r => okLine (r.result.getD emptyCreated)) :=
    List.mem_map.mpr ⟨r, List.mem_filter.mpr ⟨hr, hs⟩, by rw [hc]; rfl⟩
  have hpos : 0 < summary.successful := by
    rw [hcount]
    exact List.length_pos.mpr (List.ne_nil_of_mem (List.mem_filter.mpr ⟨hr, hs⟩))
  have h2 := sub_joinSep "\n" _ _ hmem
  have h1 : (okLine c).data <:+: (okSection summary results).data := by
    unfold okSection
    rw [if_pos hpos]
    exact strSub_appr (strSub_appl h2 _) _
  have h3 := strSub_appr (strSub_appr (strSub_appl h1 (batchReportHeader flag summary))
    (failSection summary results)) tipsText
  exact h3

theorem failLine_sub_render {flag : Bool} {summary : BatchSummary}
    {results : List ItemResult}
    (hcount : summary.failed = (results.filter (fun r => !r.success)).length)
    {r : ItemResult} (hr : r ∈ results) (hs : r.success = false) :
    (failLine r).data <:+: (renderBatchText flag summary results).data := by
  have hsf : (!r.success) = true := by rw [hs]; rfl
  have hmem : failLine r ∈ (results.filter (fun r => !r.success)).map failLine :=
    List.mem_map.mpr ⟨r, List.mem_filter.mpr ⟨hr, hsf⟩, rfl⟩
  have hpos : 0 < summary.failed := by
    rw [hcount]
    exact List.length_pos.mpr (List.ne_nil_of_mem (List.mem_filter.mpr ⟨hr, hsf⟩))
  have h2 := sub_joinSep "\n" _ _ hmem
  have h1 : (failLine r).data <:+: (failSection summary results).data := by
    unfold failSection
    rw [if_pos hpos]
    exact strSub_appr (strSub_appl h2 _) _
  have h3 := strSub_appr
    (strSub_appl h1 (batchReportHeader flag summary ++ okSection summary results))
    tipsText
  exact h3

theorem handler_init_fail {init : InitStatus} {dparse : String → Bool}
    {remote : ℕ → RequestBody → RemoteResult} {cid : String} {items : ItemsArg}
    {msg : String} (hinit : initFailureMsg init = some msg) :
    batchAddChecklistItemsHandler init dparse remote cid items =
      (.toolError msg, initEvents init) := by
  simp [batchAddChecklistItemsHandler, hinit]

theorem initEvents_no_apiCall (init : InitStatus) :
    (initEvents init).filter
      (fun ev => match ev with | .apiCall _ _ => true | _ => false) = [] := by
  cases init <;> rfl

theorem initEvents_filterMap_apiCall (init : InitStatus) :
    (initEvents init).filterMap
      (fun ev => match ev with | .apiCall j _ => some j | _ => none) = [] := by
  cases init <;> rfl

theorem events_filterMap_apiCall (l : List ItemVal) (n : ℕ) : ∀ k : ℕ,
    ((List.enumFrom k l).flatMap (fun p =>
      Event.apiCall p.1 (buildRequestBody (getFields p.2)) ::
        (if p.1 < n - 1 then [Event.delayMs 100] else []))).filterMap
      (fun ev => match ev with | .apiCall j _ => some j | _ => none) =
    List.range' k l.length := by
  induction l with
  | nil => intro k; simp
  | cons a rest ih =>
    intro k
    simp only [List.enumFrom_cons, List.flatMap_cons, List.filterMap_append,
      List.filterMap_cons]
    rw [ih (k + 1)]
    split_ifs <;> simp [List.range'_succ]

/-- C5: For every validated item, the remote mutation payload contains exactly the
fields explicitly present on the item: each absent optional field (pos, checked,
due, dueReminder, idMember) is omitted from the payload, not defaulted, and the
name field is always included with its value trimmed of surrounding whitespace. -/
theorem request_body_exact_fields (f : ItemFields) (nm : String)
    (h : f.name = some nm) :
    buildRequestBody f =
      { name := jsTrim nm, pos := f.pos, checked := f.checked, due := f.due,
        dueReminder := f.dueReminder, idMember := f.idMember } := by
  obtain ⟨na, po, ch, du, re, im⟩ := f
  simp only at h
  subst h
  cases po <;> cases ch <;> cases du <;> cases re <;> cases im <;>
    simp [buildRequestBody]

theorem request_body_exact_fields_witness :
    buildRequestBody { name := some "  Review code changes ", checked := some true } =
      { name := "Review code changes", pos := none, checked := some true, due := none,
        dueReminder := none, idMember := none } := by
  have h := request_body_exact_fields
    { name := some "  Review code changes ", checked := some true }
    "  Review code changes " rfl
  rw [h]
  decide

/-- C9 counterexample: the code accepts the fractional position one-half, which is
a non-negative number but not a non-negative integer (and not "top"/"bottom"), so
"accepted exactly when top, bottom, or a non-negative integer" is false on the
code. -/
theorem fractional_position_accepted :
    isValidPosition (.num halfQ) = true ∧ (0 : ℚ) ≤ halfQ ∧
      ¬ ∃ n : ℤ, halfQ = (n : ℚ) := by
  refine ⟨by decide, by decide, ?_⟩
  rintro ⟨n, hn⟩
  have hd := congrArg Rat.den hn
  rw [Rat.den_intCast] at hd
  exact absurd hd (by decide)

/-- C9 (amended): a position is accepted exactly when it is "top", "bottom", or a
non-negative number (not necessarily an integer); a present position that is not
accepted yields exactly the pos validation error for that item. -/
theorem position_acceptance_characterization :
    (∀ p : PosVal, isValidPosition p = true ↔
      (p = .str "top" ∨ p = .str "bottom" ∨ ∃ q : ℚ, p = .num q ∧ 0 ≤ q)) ∧
    (∀ (dparse : String → Bool) (cid : String) (f : ItemFields),
      posInvalidErr ∈ validateChecklistItemParameters dparse cid f ↔
        ∃ p, f.pos = some p ∧ isValidPosition p = false) := by
  constructor
  · intro p
    cases p with
    | str s => simp [isValidPosition]
    | num q => simp [isValidPosition]
  · exact posInvalid_mem_validate

theorem position_acceptance_characterization_witness :
    posInvalidErr ∈ validateChecklistItemParameters dparse0 cid0
      { name := some "Run tests", pos := some (.str "middle") } :=
  (position_acceptance_characterization.2 dparse0 cid0
    { name := some "Run tests", pos := some (.str "middle") }).mpr
    ⟨.str "middle", rfl, by decide⟩

/-- C10: a present name passes validation (produces no name-field error) exactly
when it is non-empty after trimming and its untrimmed length is at most 16384
characters; whitespace-only names are rejected, while whitespace still counts
toward the length limit. -/
theorem item_name_acceptance_characterization (dparse : String → Bool) (cid : String)
    (f : ItemFields) (nm : String) (h : f.name = some nm) :
    ((validateChecklistItemParameters dparse cid f).filter
        (fun e => e.errorField == "name") = [] ↔
      (jsTrim nm ≠ "" ∧ nm.length ≤ 16384)) := by
  rw [filter_name_validate, h]
  simp only [nameFieldErrors]
  split_ifs with h1 h2
  · have : nm = "" := by simpa using h1
    subst this
    simp [jsTrim_empty]
  · constructor
    · intro hc; simp at hc
    · rintro ⟨ht, hl⟩
      have hvn : isValidItemName nm = true := by
        simp [isValidItemName, hl, (str_ne_empty_iff _).mp ht]
      rw [hvn] at h2
      simp at h2
  · simp [isValidItemName] at h2
    exact iff_of_true rfl
      ⟨(str_ne_empty_iff _).mpr (Nat.pos_of_ne_zero h2.1), h2.2⟩

theorem item_name_acceptance_characterization_witness :
    ((validateChecklistItemParameters dparse0 cid0 { name := some "Review code changes" }).filter
      (fun e => e.errorField == "name") = []) ∧
    ¬ ((validateChecklistItemParameters dparse0 cid0 { name := some "   " }).filter
      (fun e => e.errorField == "name") = []) := by
  constructor
  · exact (item_name_acceptance_characterization dparse0 cid0
      { name := some "Review code changes" } "Review code changes" rfl).mpr
      ⟨by decide, by decide⟩
  · intro hc
    exact absurd ((item_name_acceptance_characterization dparse0 cid0
      { name := some "   " } "   " rfl).mp hc).1 (by decide)

/-- C4: batch validation returns the full deterministic error list: the
checklistId errors first, then either the single items-level error (missing,
non-array, bad size) or, for a well-sized array, the per-item errors in item
order with, inside each item, the fixed field order name, pos, due, dueReminder,
idMember (`specItemFieldErrors`, written from the wording of the spec); every
offending field contributes its error independently of the others. -/
theorem batch_validation_lists_all_errors_in_order (dparse : String → Bool)
    (cid : String) :
    (validateBatchChecklistItemParameters dparse cid .undef =
      checklistIdFieldErrors cid ++ [itemsRequiredErr]) ∧
    (validateBatchChecklistItemParameters dparse cid .notArray =
      checklistIdFieldErrors cid ++ [itemsNotArrayErr]) ∧
    (∀ l : List ItemVal, isValidBatchSize l = false →
      validateBatchChecklistItemParameters dparse cid (.arr l) =
        checklistIdFieldErrors cid ++ [batchSizeErr]) ∧
    (∀ l : List ItemVal, isValidBatchSize l = true →
      validateBatchChecklistItemParameters dparse cid (.arr l) =
        checklistIdFieldErrors cid ++
          (List.enum l).flatMap (fun p => specItemFieldErrors dparse p.1 p.2)) := by
  refine ⟨rfl, rfl, ?_, ?_⟩
  · intro l hs
    simp [validateBatchChecklistItemParameters, hs]
  · intro l hs
    simp only [validateBatchChecklistItemParameters, hs, Bool.not_true,
      Bool.false_eq_true, if_false]
    rw [batchItemsLoop_eq_flatMap]
    have hspec : ∀ p : ℕ × ItemVal,
        batchItemErrors dparse cid p.1 p.2 = specItemFieldErrors dparse p.1 p.2 :=
      fun p => batchItemErrors_eq_spec dparse cid p.1 p.2
    simp [List.enum, hspec]

theorem batch_validation_lists_all_errors_in_order_witness :
    validateBatchChecklistItemParameters dparse0 "not-a-hex-id"
      (.arr [.obj { name := some "" }, .notObject,
        .obj { name := some "ok", pos := some (.str "middle"),
               idMember := some "xyz" }]) =
      [cidInvalidErr, prefixItemErr 0 nameRequiredErr, itemFormatErr 1,
       prefixItemErr 2 posInvalidErr, prefixItemErr 2 memberInvalidErr] := by
  have h := (batch_validation_lists_all_errors_in_order dparse0 "not-a-hex-id").2.2.2
    [.obj { name := some "" }, .notObject,
     .obj { name := some "ok", pos := some (.str "middle"), idMember := some "xyz" }]
    (by decide)
  rw [h]
  decide

/-- C1: for every batch request that passes validation, with N items
(1 ≤ N ≤ 50), the handler returns a batch result whose results sequence has
exactly N entries, and the entry at position j has index j and carries input
item j, in input order. -/
theorem batch_results_cover_inputs_in_order
    (init : InitStatus) (dparse : String → Bool)
    (remote : ℕ → RequestBody → RemoteResult) (cid : String) (l : List ItemVal)
    (hinit : initFailureMsg init = none)
    (hv : validateBatchChecklistItemParameters dparse cid (.arr l) = []) :
    ∃ summary results flag text meta,
      (batchAddChecklistItemsHandler init dparse remote cid (.arr l)).1 =
        .batchResult summary results flag text meta ∧
      1 ≤ l.length ∧ l.length ≤ 50 ∧
      results.length = l.length ∧
      ∀ j, j < l.length → ∃ r a, results[j]? = some r ∧ l[j]? = some a ∧
        r.index = j ∧ r.item = a := by
  have hrun := runItems_results remote l.length l 0
  have hsize := (validate_arr_pass hv).2.1
  simp only [isValidBatchSize, Bool.and_eq_true, decide_eq_true_eq] at hsize
  refine ⟨_, _, _, _, _, by rw [handler_arr_pass hinit hv], hsize.1, hsize.2, ?_, ?_⟩
  · rw [hrun]; simp
  · intro j hj
    refine ⟨itemOutcome remote j l[j], l[j], ?_, List.getElem?_eq_getElem hj, ?_, ?_⟩
    · rw [hrun]
      simp [List.getElem?_enumFrom, List.getElem?_eq_getElem hj]
    · exact (itemOutcome_fixed remote j l[j]).1
    · exact (itemOutcome_fixed remote j l[j]).2

theorem batch_results_cover_inputs_in_order_witness :
    ∃ summary results flag text meta,
      (batchAddChecklistItemsHandler .ready dparse0 remoteOk cid0
        (.arr [itemA, itemB])).1 =
        .batchResult summary results flag text meta ∧
      1 ≤ ([itemA, itemB] : List ItemVal).length ∧
      ([itemA, itemB] : List ItemVal).length ≤ 50 ∧
      results.length = ([itemA, itemB] : List ItemVal).length ∧
      ∀ j, j < ([itemA, itemB] : List ItemVal).length →
        ∃ r a, results[j]? = some r ∧ ([itemA, itemB] : List ItemVal)[j]? = some a ∧
          r.index = j ∧ r.item = a :=
  batch_results_cover_inputs_in_order .ready dparse0 remoteOk cid0 [itemA, itemB]
    rfl (by decide)

/-- C2: if item i of a validated batch fails remotely with any thrown value e,
the handler records outcome i as failed with the classified human-readable
message, the classification lands in one of the coarse buckets (not-found /
unauthorized / forbidden / rate-limited / pass-through "other"), and every item
of the batch is still attempted: the results sequence covers all N indices in
order regardless of the failure. -/
theorem batch_item_failure_recorded_and_isolated
    (init : InitStatus) (dparse : String → Bool)
    (remote : ℕ → RequestBody → RemoteResult) (cid : String) (l : List ItemVal)
    (i : ℕ) (e : ErrorVal)
    (hinit : initFailureMsg init = none)
    (hv : validateBatchChecklistItemParameters dparse cid (.arr l) = [])
    (hi : i < l.length)
    (he : remote i (buildRequestBody (getFields l[i])) = .err e) :
    ∃ summary results flag text meta,
      (batchAddChecklistItemsHandler init dparse remote cid (.arr l)).1 =
        .batchResult summary results flag text meta ∧
      results.length = l.length ∧
      results[i]? = some { index := i, success := false, item := l[i],
                           result := none,
                           error := some (classifyRemoteError e) } ∧
      (classifyRemoteError e = notFoundMsg ∨ classifyRemoteError e = unauthorizedMsg ∨
       classifyRemoteError e = forbiddenMsg ∨ classifyRemoteError e = rateLimitMsg ∨
       (∃ m, e = .jsError m ∧ classifyRemoteError e = m) ∨
       (e = .nonError ∧ classifyRemoteError e = unknownErrMsg)) ∧
      (∀ j, j < l.length → ∃ r, results[j]? = some r ∧ r.index = j) := by
  have hrun := runItems_results remote l.length l 0
  refine ⟨_, _, _, _, _, by rw [handler_arr_pass hinit hv], ?_, ?_,
    classifyRemoteError_cases e, ?_⟩
  · rw [hrun]; simp
  · rw [hrun]
    simp only [List.getElem?_map, List.getElem?_enumFrom,
      List.getElem?_eq_getElem hi, Option.map_some]
    simp [itemOutcome, he]
  · intro j hj
    refine ⟨itemOutcome remote j l[j], ?_, (itemOutcome_fixed remote j l[j]).1⟩
    rw [hrun]
    simp [List.getElem?_enumFrom, List.getElem?_eq_getElem hj]

theorem batch_item_failure_recorded_and_isolated_witness :
    ∃ summary results flag text meta,
      (batchAddChecklistItemsHandler .ready dparse0 remoteFail1 cid0
        (.arr [itemA, itemB, itemC])).1 =
        .batchResult summary results flag text meta ∧
      results.length = ([itemA, itemB, itemC] : List ItemVal).length ∧
      results[1]? = some { index := 1, success := false,
                           item := ([itemA, itemB, itemC] : List ItemVal)[1],
                           result := none,
                           error := some (classifyRemoteError
                             (.jsError
                               "HTTP 404: Not Found - the requested resource was not found")) } ∧
      (classifyRemoteError
          (.jsError "HTTP 404: Not Found - the requested resource was not found") =
            notFoundMsg ∨
       classifyRemoteError
          (.jsError "HTTP 404: Not Found - the requested resource was not found") =
            unauthorizedMsg ∨
       classifyRemoteError
          (.jsError "HTTP 404: Not Found - the requested resource was not found") =
            forbiddenMsg ∨
       classifyRemoteError
          (.jsError "HTTP 404: Not Found - the requested resource was not found") =
            rateLimitMsg ∨
       (∃ m, (ErrorVal.jsError "HTTP 404: Not Found - the requested resource was not found") =
          .jsError m ∧
        classifyRemoteError
          (.jsError "HTTP 404: Not Found - the requested resource was not found") = m) ∨
       ((ErrorVal.jsError "HTTP 404: Not Found - the requested resource was not found") =
          .nonError ∧
        classifyRemoteError
          (.jsError "HTTP 404: Not Found - the requested resource was not found") =
            unknownErrMsg)) ∧
      (∀ j, j < ([itemA, itemB, itemC] : List ItemVal).length →
        ∃ r, results[j]? = some r ∧ r.index = j) :=
  batch_item_failure_recorded_and_isolated .ready dparse0 remoteFail1 cid0
    [itemA, itemB, itemC] 1
    (.jsError "HTTP 404: Not Found - the requested resource was not found")
    rfl (by decide) (by decide) (by decide)

/-- C6: for every validated batch of N items the summary satisfies total = N,
successful = number of succeeded outcomes, failed = number of failed outcomes,
successful + failed = total, the overall-success flag (which selects the
"Completed Successfully" header) holds exactly when failed = 0, and the handler
returns a batch result (it does not throw) once validation has passed. -/
theorem batch_summary_accounting
    (init : InitStatus) (dparse : String → Bool)
    (remote : ℕ → RequestBody → RemoteResult) (cid : String) (l : List ItemVal)
    (hinit : initFailureMsg init = none)
    (hv : validateBatchChecklistItemParameters dparse cid (.arr l) = []) :
    ∃ summary results flag text meta,
      (batchAddChecklistItemsHandler init dparse remote cid (.arr l)).1 =
        .batchResult summary results flag text meta ∧
      summary.total = l.length ∧
      summary.successful = (results.filter (fun r => r.success)).length ∧
      summary.failed = (results.filter (fun r => !r.success)).length ∧
      summary.successful + summary.failed = summary.total ∧
      summary.checklistId = cid ∧
      (flag = true ↔ summary.failed = 0) := by
  refine ⟨_, _, _, _, _, by rw [handler_arr_pass hinit hv], rfl,
    runItems_success_count remote l.length l 0,
    runItems_failed_count remote l.length l 0,
    runItems_counts_sum remote l.length l 0, rfl, ?_⟩
  simp

theorem batch_summary_accounting_witness :
    ∃ summary results flag text meta,
      (batchAddChecklistItemsHandler .ready dparse0 remoteFail1 cid0
        (.arr [itemA, itemB, itemC])).1 =
        .batchResult summary results flag text meta ∧
      summary.total = ([itemA, itemB, itemC] : List ItemVal).length ∧
      summary.successful = (results.filter (fun r => r.success)).length ∧
      summary.failed = (results.filter (fun r => !r.success)).length ∧
      summary.successful + summary.failed = summary.total ∧
      summary.checklistId = cid0 ∧
      (flag = true ↔ summary.failed = 0) :=
  batch_summary_accounting .ready dparse0 remoteFail1 cid0 [itemA, itemB, itemC]
    rfl (by decide)

/-- C8: for every validated batch the event trace is exactly: the create call for
item 0, a fixed 100 ms delay, the create call for item 1, ..., with one delay
between each pair of consecutive calls, none after the last, and the same
constant 100 ms whether each item succeeds or fails (the trace does not
depend on the remote oracle at all, so there is no adaptation and no backoff);
each index is called exactly once, in order (no retries). -/
theorem batch_pacing_trace
    (init : InitStatus) (dparse : String → Bool)
    (remote : ℕ → RequestBody → RemoteResult) (cid : String) (l : List ItemVal)
    (hinit : initFailureMsg init = none)
    (hv : validateBatchChecklistItemParameters dparse cid (.arr l) = []) :
    (batchAddChecklistItemsHandler init dparse remote cid (.arr l)).2 =
      initEvents init ++
        (List.enum l).flatMap (fun p =>
          Event.apiCall p.1 (buildRequestBody (getFields p.2)) ::
            (if p.1 < l.length - 1 then [Event.delayMs 100] else [])) ∧
    (∀ remote2, (batchAddChecklistItemsHandler init dparse remote2 cid (.arr l)).2 =
      (batchAddChecklistItemsHandler init dparse remote cid (.arr l)).2) ∧
    ((batchAddChecklistItemsHandler init dparse remote cid (.arr l)).2.filterMap
      (fun ev => match ev with | .apiCall j _ => some j | _ => none) =
      List.range l.length) := by
  have hmain : ∀ rem : ℕ → RequestBody → RemoteResult,
      (batchAddChecklistItemsHandler init dparse rem cid (.arr l)).2 =
        initEvents init ++ (List.enum l).flatMap (fun p =>
          Event.apiCall p.1 (buildRequestBody (getFields p.2)) ::
            (if p.1 < l.length - 1 then [Event.delayMs 100] else [])) := by
    intro rem
    rw [handler_arr_pass hinit hv]
    show initEvents init ++ (runItems rem l.length 0 l).events = _
    rw [runItems_events rem l.length l 0]
    rfl
  refine ⟨hmain remote, fun remote2 => by rw [hmain remote2, hmain remote], ?_⟩
  rw [hmain remote, List.filterMap_append, initEvents_filterMap_apiCall]
  rw [show List.enum l = List.enumFrom 0 l from rfl,
    events_filterMap_apiCall l l.length 0]
  simp [List.range_eq_range']

theorem batch_pacing_trace_witness :
    (batchAddChecklistItemsHandler .ready dparse0 remoteOk cid0
      (.arr [itemA, itemB])).2 =
      [Event.apiCall 0 { name := "Review code changes", pos := none, checked := none,
                         due := none, dueReminder := none, idMember := none },
       Event.delayMs 100,
       Event.apiCall 1 { name := "Update documentation", pos := none, checked := none,
                         due := none, dueReminder := none, idMember := none }] := by
  have h := (batch_pacing_trace .ready dparse0 remoteOk cid0 [itemA, itemB]
    rfl (by decide)).1
  rw [h]
  decide

/-- Used by the C3 counterexample: every HTTP request event (the credential check
and the per-item create calls), excluding the pure pacing delays. -/
def isRemoteCall : Event → Bool
  | .credentialCheck => true
  | .apiCall _ _ => true
  | .delayMs _ => false

/-- C3 counterexample: on a not-yet-initialized service, a batch request that
fails validation (here: empty items array plus missing id) still causes one
remote HTTP request — the credential-validation GET of
`TrelloApiService.initialize`, issued before validation runs — so "zero remote
calls are made for the whole batch" is false as stated. -/
theorem validation_error_still_makes_remote_call :
    (validateBatchChecklistItemParameters dparse0 "" (.arr []) ≠ []) ∧
    (batchAddChecklistItemsHandler .firstUse dparse0 remoteOk "" (.arr [])).1 =
      .validationError (validateBatchChecklistItemParameters dparse0 "" (.arr [])) ∧
    ((batchAddChecklistItemsHandler .firstUse dparse0 remoteOk "" (.arr [])).2.filter
      isRemoteCall).length = 1 := by
  have h := @handler_validation_fail .firstUse dparse0 remoteOk "" (.arr [])
    rfl (by decide)
  refine ⟨by decide, ?_, ?_⟩
  · rw [h]
  · rw [h]
    decide

/-- C3 (amended): when validation fails, the handler issues zero checklist-item
creation calls; if the service was already initialized it issues no remote call
at all and returns the validation error response; on a not-yet-initialized
service the only remote traffic is the credential-validation request of the
set-up step (and if set-up throws, a generic tool error response is returned
instead).  The response never depends on the create-call oracle, reflecting that
validation is a pure function. -/
theorem validation_error_no_create_calls
    (init : InitStatus) (dparse : String → Bool)
    (remote : ℕ → RequestBody → RemoteResult) (cid : String) (items : ItemsArg)
    (hv : validateBatchChecklistItemParameters dparse cid items ≠ []) :
    ((batchAddChecklistItemsHandler init dparse remote cid items).2.filter
      (fun ev => match ev with | .apiCall _ _ => true | _ => false) = []) ∧
    ((batchAddChecklistItemsHandler init dparse remote cid items).2 =
      initEvents init) ∧
    (initFailureMsg init = none →
      (batchAddChecklistItemsHandler init dparse remote cid items).1 =
        .validationError (validateBatchChecklistItemParameters dparse cid items)) ∧
    (init = .ready →
      (batchAddChecklistItemsHandler init dparse remote cid items).2 = []) ∧
    (∀ remote2, batchAddChecklistItemsHandler init dparse remote2 cid items =
      batchAddChecklistItemsHandler init dparse remote cid items) := by
  cases hini : initFailureMsg init with
  | some msg =>
    rw [handler_init_fail hini]
    refine ⟨initEvents_no_apiCall init, rfl, ?_, ?_, ?_⟩
    · intro hc
      exact absurd hc (by simp)
    · intro hr
      subst hr
      simp [initFailureMsg] at hini
    · intro remote2
      rw [handler_init_fail hini]
  | none =>
    rw [handler_validation_fail hini hv]
    refine ⟨initEvents_no_apiCall init, rfl, fun _ => rfl, ?_, ?_⟩
    · intro hr
      subst hr
      rfl
    · intro remote2
      rw [handler_validation_fail hini hv]

theorem validation_error_no_create_calls_witness :
    ((batchAddChecklistItemsHandler .ready dparse0 remoteOk "" .undef).2.filter
      (fun ev => match ev with | .apiCall _ _ => true | _ => false) = []) ∧
    ((batchAddChecklistItemsHandler .ready dparse0 remoteOk "" .undef).2 =
      initEvents .ready) ∧
    (initFailureMsg .ready = none →
      (batchAddChecklistItemsHandler .ready dparse0 remoteOk "" .undef).1 =
        .validationError (validateBatchChecklistItemParameters dparse0 "" .undef)) ∧
    (InitStatus.ready = .ready →
      (batchAddChecklistItemsHandler .ready dparse0 remoteOk "" .undef).2 = []) ∧
    (∀ remote2, batchAddChecklistItemsHandler .ready dparse0 remote2 "" .undef =
      batchAddChecklistItemsHandler .ready dparse0 remoteOk "" .undef) :=
  validation_error_no_create_calls .ready dparse0 remoteOk "" .undef (by decide)

/-- C7 counterexample: the structured part of the batch response (the serialized
`_meta` object) has top-level keys batchOperation / summary / results and no
`success` field at all — the claimed shape
`{ success: boolean, summary: ..., results: ... }` is false on the code; overall
success is only reflected in the rendered text header. -/
theorem batch_meta_lacks_success_field :
    ∃ summary results flag text meta,
      (batchAddChecklistItemsHandler .ready dparse0 remoteOk cid0 (.arr [itemA])).1 =
        .batchResult summary results flag text meta ∧
      jlookup meta "success" = none ∧
      jkeys meta = ["batchOperation", "summary", "results"] := by
  refine ⟨_, _, _, _, _,
    by rw [@handler_arr_pass .ready dparse0 remoteOk cid0 [itemA]
      rfl (by decide)], ?_, ?_⟩
  · rfl
  · rfl

/-- C7 (amended): for every validated batch the structured response is
`{ batchOperation: true, summary: {total, successful, failed, checklistId},
results: [...] }` (no top-level success boolean), and the rendered text report
contains, for each succeeded item, the line with its created name and id, and for
each failed item, the line with its input name and classified failure reason. -/
theorem batch_response_shape_and_report
    (init : InitStatus) (dparse : String → Bool)
    (remote : ℕ → RequestBody → RemoteResult) (cid : String) (l : List ItemVal)
    (hinit : initFailureMsg init = none)
    (hv : validateBatchChecklistItemParameters dparse cid (.arr l) = []) :
    ∃ summary results flag text meta,
      (batchAddChecklistItemsHandler init dparse remote cid (.arr l)).1 =
        .batchResult summary results flag text meta ∧
      meta = .jobj [("batchOperation", .jbool true), ("summary", summaryJson summary),
        ("results", .jarr (results.map resultJson))] ∧
      summaryJson summary = .jobj [("total", .jnum (summary.total : ℚ)),
        ("successful", .jnum (summary.successful : ℚ)),
        ("failed", .jnum (summary.failed : ℚ)),
        ("checklistId", .jstr summary.checklistId)] ∧
      text = renderBatchText flag summary results ∧
      (∀ r ∈ results, ∀ c : CreatedItem, r.success = true → r.result = some c →
        ("- **" ++ c.name ++ "** (ID: `" ++ c.id ++ "`)").data <:+: text.data) ∧
      (∀ r ∈ results, r.success = false →
        ("- **" ++ ((getFields r.item).name.getD "undefined") ++ "**: " ++
          (r.error.getD "undefined")).data <:+: text.data) := by
  refine ⟨_, _, _, _, _, by rw [handler_arr_pass hinit hv], ?_, ?_, ?_, ?_, ?_⟩
  · rfl
  · rfl
  · rfl
  · intro r hr c hs hc
    exact okLine_sub_render (runItems_success_count remote l.length l 0) hr hs hc
  · intro r hr hs
    exact failLine_sub_render (runItems_failed_count remote l.length l 0) hr hs

theorem batch_response_shape_and_report_witness :
    ∃ summary results flag text meta,
      (batchAddChecklistItemsHandler .ready dparse0 remoteFail1 cid0
        (.arr [itemA, itemB, itemC])).1 =
        .batchResult summary results flag text meta ∧
      meta = .jobj [("batchOperation", .jbool true), ("summary", summaryJson summary),
        ("results", .jarr (results.map resultJson))] ∧
      summaryJson summary = .jobj [("total", .jnum (summary.total : ℚ)),
        ("successful", .jnum (summary.successful : ℚ)),
        ("failed", .jnum (summary.failed : ℚ)),
        ("checklistId", .jstr summary.checklistId)] ∧
      text = renderBatchText flag summary results ∧
      (∀ r ∈ results, ∀ c : CreatedItem, r.success = true → r.result = some c →
        ("- **" ++ c.name ++ "** (ID: `" ++ c.id ++ "`)").data <:+: text.data) ∧
      (∀ r ∈ results, r.success = false →
        ("- **" ++ ((getFields r.item).name.getD "undefined") ++ "**: " ++
          (r.error.getD "undefined")).data <:+: text.data) :=
  batch_response_shape_and_report .ready dparse0 remoteFail1 cid0
    [itemA, itemB, itemC] rfl (by decide)
